import Mathlib

/-!
Verification of the Gemini MCP server (`gemini_mcp.py`).

The Python source is shallowly embedded: sessions, the session store, the
file-attachment pipeline, the consultation orchestrator and the session
reaper become pure Lean functions over an explicit server state, with every
external interaction (the `genai` client, the filesystem, MIME guessing)
provided by an oracle record `Gateway` and recorded as an `Event`.
Timestamps (`time.time()`, `datetime.now()`) are natural-number seconds
passed in explicitly.  The cooperative-scheduling behaviour of
`_rate_limit` is modelled separately as a small labelled transition system.
-/

set_option autoImplicit false

namespace GeminiMCP

/-- `ProcessedFile` dataclass (source lines 59-67). -/
structure ProcessedFile where
  file_type : String
  file_uri : String
  mime_type : String
  file_name : String
  file_path : String
  gemini_file_id : String
deriving DecidableEq, Repr

/-- `Session` dataclass (source lines 69-83).  The opaque `chat` object
returned by `client.chats.create` is modelled as a `Nat` handle, allocated
from a counter in the server state.  `processed_files` is a Python dict,
modelled as an insertion-ordered association list with unique keys. -/
structure Session where
  session_id : String
  chat : Nat
  created : Nat
  last_used : Nat
  message_count : Nat
  problem_description : Option String := none
  code_context : Option String := none
  processed_files : List (String × ProcessedFile) := []
deriving DecidableEq, Repr

/-- The file object returned by `client.files.upload` / `client.files.get`.
`error` models the `error` attribute read by
`getattr(uploaded_file, 'error', 'Unknown error')` (line 197). -/
structure GFile where
  name : String
  uri : String
  mime_type : String
  state : String
  error : String := "Unknown error"
deriving DecidableEq, Repr

/-- One part of a `send_message` payload: text or an uploaded file object. -/
inductive MsgPart where
  | text (s : String)
  | file (f : GFile)
deriving DecidableEq, Repr

/-- `chat.send_message` is called with a plain string (line 372) or with a
list of parts (line 348). -/
inductive Content where
  | str (s : String)
  | parts (l : List MsgPart)
deriving DecidableEq, Repr

/-- A call made on the external `genai` client.  `chatsCreate` records
`client.chats.create` (line 230), `filesUpload` records
`client.files.upload` (line 182), `filesGet` records `client.files.get`
(lines 191 and 343), `sendMessage` records `chat.send_message`
(lines 348 and 372), `filesDelete` records `client.files.delete`
(line 123). -/
inductive Event where
  | chatsCreate (chat : Nat)
  | filesUpload (path : String)
  | filesGet (name : String)
  | sendMessage (chat : Nat)
  | filesDelete (id : String)
deriving DecidableEq, Repr

/-- Oracle for everything outside the server: the local filesystem
(`os.path.exists`), stdlib MIME guessing (`mimetypes.guess_type`), and the
remote Gemini client.  `getFile name k` is the result of
`client.files.get` for `name`: the poll loop of `_process_file` uses
`k = 1, 2, ...` (its `wait_time` counter) and the re-fetch at line 343 uses
`k = 0`.  `send chat c` is the `send_message` outcome: `.ok text` is a
response, `.error m` a raised exception with message `m`. -/
structure Gateway where
  pathExists : String → Bool
  guessType : String → Option String
  upload : String → GFile
  getFile : String → Nat → GFile
  send : Nat → Content → Except String String

/-- Mutable state of `GeminiMCPServer` (source lines 88-92).  `sessions` is
the Python dict, `next_chat` the allocator for fresh chat handles. -/
structure ServerState where
  sessions : List (String × Session)
  last_request_time : Nat
  next_chat : Nat
deriving DecidableEq, Repr

/-- Arguments of the `consult_gemini` tool (source lines 258-267).
`file_descriptions` is a Python dict, modelled as an association list. -/
structure ConsultArgs where
  specific_question : String
  session_id : Option String := none
  problem_description : Option String := none
  code_context : Option String := none
  attached_files : Option (List String) := none
  file_descriptions : Option (List (String × String)) := none
  additional_context : Option String := none
  preferred_approach : String := "solution"
deriving DecidableEq, Repr

/-! ### Python dict operations on association lists -/

/-- `m[k]` / `k in m` lookup on a Python dict modelled as an association
list (first matching key; keys are unique in every reachable state). -/
def lookupKey {α : Type} (m : List (String × α)) (k : String) : Option α :=
  match m with
  | [] => none
  | (k', v) :: rest => bif k' == k then some v else lookupKey rest k

/-- `m[k] = v` on a Python dict: replace in place if the key is present,
append otherwise (Python dicts preserve insertion order). -/
def insertKey {α : Type} (m : List (String × α)) (k : String) (v : α) :
    List (String × α) :=
  if (lookupKey m k).isSome then
    m.map (fun p => bif p.1 == k then (k, v) else p)
  else
    m ++ [(k, v)]

/-- `del m[k]` on a Python dict. -/
def removeKey {α : Type} (m : List (String × α)) (k : String) :
    List (String × α) :=
  m.filter (fun p => p.1 != k)

/-! ### Python truthiness helpers -/

/-- Python falsiness of an `Optional[str]`: `None` or `""`. -/
def optStrEmpty : Option String → Bool
  | none => true
  | some s => s == ""

/-- Python falsiness of an `Optional[List[str]]`: `None` or `[]`. -/
def optListEmpty : Option (List String) → Bool
  | none => true
  | some l => l.isEmpty

/-- `pat` is a prefix of `l` (character-by-character). -/
def startsWithChars : List Char → List Char → Bool
  | [], _ => true
  | _ :: _, [] => false
  | c :: cs, d :: ds => c == d && startsWithChars cs ds

/-- `pat` occurs as a contiguous run inside `l`. -/
def occursIn (pat : List Char) : List Char → Bool
  | [] => pat.isEmpty
  | c :: rest => startsWithChars pat (c :: rest) || occursIn pat rest

/-- Python `pat in s` substring test on strings. -/
def strContains (s pat : String) : Bool :=
  occursIn pat.data s.data

/-! ### Configuration constants (source lines 29, 91) -/

/-- `SESSION_TTL = 3600` seconds. -/
def SESSION_TTL : Nat := 3600

/-- `min_time_between_requests = 1.0` second. -/
def MIN_TIME_BETWEEN_REQUESTS : Nat := 1

/-! ### Rate limiter (`_rate_limit`, source lines 128-134) -/

/-- The instant at which one `_rate_limit()` call returns when it starts at
`now` with `last_request_time = last` and runs without interference:
if `now - last < minSpacing` it sleeps for the difference, otherwise it
returns immediately; either way `last_request_time` is set to the return
instant. -/
def rateLimitGrant (now last minSpacing : Nat) : Nat :=
  if now - last < minSpacing then now + (minSpacing - (now - last)) else now

/-! ### MIME inference and path helpers (`_process_file`, lines 146-176)

`os.path.basename` / `os.path.splitext` are Python stdlib; they are
modelled here for POSIX-style paths (the forms the server receives). -/

/-- Characters after the last `/` of a path. -/
def basenameChars (l : List Char) : List Char :=
  l.foldl (fun acc c => bif c == '/' then [] else acc ++ [c]) []

/-- `os.path.basename` for POSIX paths. -/
def basename (p : String) : String :=
  String.mk (basenameChars p.data)

/-- Index of the last occurrence of `c` in `l`, if any. -/
def lastIdxOf (c : Char) : List Char → Option Nat
  | [] => none
  | x :: xs =>
    match lastIdxOf c xs with
    | some i => some (i + 1)
    | none => bif x == c then some 0 else none

/-- `os.path.splitext(...)[1]`: the part of the basename from its last
dot on, or empty when there is no dot or everything before the last dot
is dots (leading-dot files such as `.bashrc` have no extension). -/
def extOf (p : String) : String :=
  let cs := (basename p).data
  match lastIdxOf '.' cs with
  | none => ""
  | some i =>
    bif (cs.take i).all (fun c => c == '.') then "" else String.mk (cs.drop i)

/-- The hard-coded extension fallback table of `_process_file`
(source lines 153-176), consulted when `mimetypes.guess_type` returns
nothing; unknown extensions default to `text/plain`. -/
def mimeFallback (ext : String) : String :=
  if ext == ".jsx" then "text/javascript"
  else if ext == ".tsx" then "text/typescript"
  else if ext == ".ts" then "text/typescript"
  else if ext == ".vue" then "text/html"
  else if ext == ".svelte" then "text/html"
  else if ext == ".md" then "text/markdown"
  else if ext == ".json" then "application/json"
  else if ext == ".py" then "text/x-python"
  else if ext == ".js" then "text/javascript"
  else if ext == ".css" then "text/css"
  else if ext == ".html" then "text/html"
  else if ext == ".xml" then "text/xml"
  else if ext == ".yaml" then "text/yaml"
  else if ext == ".yml" then "text/yaml"
  else if ext == ".toml" then "text/plain"
  else if ext == ".ini" then "text/plain"
  else if ext == ".cfg" then "text/plain"
  else if ext == ".conf" then "text/plain"
  else if ext == ".sh" then "text/x-shellscript"
  else if ext == ".bat" then "text/plain"
  else if ext == ".sql" then "text/x-sql"
  else "text/plain"

/-! ### File attachment pipeline (`_process_file`, lines 136-216) -/

/-- The polling loop of `_process_file` (lines 185-191):
`while uploaded_file.state == 'PROCESSING' and wait_time < 30`, refetching
the file each second.  `fuel` is `30 - wait_time`, `wait` the current
`wait_time`; returns the final file object together with the recorded
`client.files.get` calls. -/
def pollLoop (gw : Gateway) (name : String) : GFile → Nat → Nat → GFile × List Event
  | u, _, 0 => (u, [])
  | u, wait, fuel + 1 =>
    bif u.state == "PROCESSING" then
      let u' := gw.getFile name (wait + 1)
      let r := pollLoop gw name u' (wait + 1) fuel
      (r.1, Event.filesGet name :: r.2)
    else (u, [])

/-- `_process_file` (lines 136-216): return the cached `ProcessedFile` if
the path was already processed in this session; otherwise check local
existence, upload, poll until ready, and cache the result.  Errors raised
inside the upload `try` block are wrapped with
`"Failed to process file {path}: "` (line 216); the `FileNotFoundError`
(line 144) is raised before that block and is not wrapped.  The guessed
MIME type is only used in a log line in the source, hence unused here. -/
def process_file (gw : Gateway) (file_path : String) (s : Session) :
    Except String ProcessedFile × Session × List Event :=
  match lookupKey s.processed_files file_path with
  | some pf => (Except.ok pf, s, [])
  | none =>
    bif !gw.pathExists file_path then
      (Except.error ("File not found: " ++ file_path), s, [])
    else
      let file_name := basename file_path
      let _mime_type :=
        match gw.guessType file_path with
        | some m => m
        | none => mimeFallback (extOf file_path).toLower
      let u0 := gw.upload file_path
      let r := pollLoop gw u0.name u0 0 30
      let evs := Event.filesUpload file_path :: r.2
      bif r.1.state == "PROCESSING" then
        (Except.error ("Failed to process file " ++ file_path ++
          ": File processing timeout after 30 seconds"), s, evs)
      else bif r.1.state == "FAILED" then
        (Except.error ("Failed to process file " ++ file_path ++
          ": File upload failed: " ++ r.1.error), s, evs)
      else
        let pf : ProcessedFile :=
          { file_type := "file_data"
            file_uri := r.1.uri
            mime_type := r.1.mime_type
            file_name := file_name
            file_path := file_path
            gemini_file_id := r.1.name }
        (Except.ok pf,
         { s with processed_files := insertKey s.processed_files file_path pf },
         evs)

/-! ### Session store (`_get_or_create_session`, lines 218-251) -/

/-- The session id actually used: a fresh uuid when the argument is absent
or empty (`if not session_id`, line 220); `freshId` stands for the
generated `uuid.uuid4()` string. -/
def resolveId (session_id : Option String) (freshId : String) : String :=
  match session_id with
  | none => freshId
  | some i => bif i == "" then freshId else i

/-- `_get_or_create_session` (lines 218-251): touch and return a known
session, or create a fresh one with a new chat handle
(`client.chats.create`, recorded as `Event.chatsCreate`) and register it. -/
def get_or_create_session (st : ServerState) (now : Nat)
    (session_id : Option String) (freshId : String) :
    Session × ServerState × List Event :=
  let sid := resolveId session_id freshId
  match lookupKey st.sessions sid with
  | some s =>
    let s' := { s with last_used := now }
    (s', { st with sessions := insertKey st.sessions sid s' }, [])
  | none =>
    let chat := st.next_chat
    let s : Session :=
      { session_id := sid
        chat := chat
        created := now
        last_used := now
        message_count := 0 }
    (s,
     { st with
        sessions := insertKey st.sessions sid s
        next_chat := chat + 1 },
     [Event.chatsCreate chat])

/-! ### Session reaper (`_cleanup_sessions` / `_cleanup_session_files`,
lines 99-126) -/

/-- `_cleanup_session_files` (lines 115-126): one `client.files.delete`
call per processed file of the session, best-effort (failures are logged
and do not stop the loop, so the recorded calls do not depend on their
outcomes); no-op when the id is unknown. -/
def cleanup_session_files (st : ServerState) (sid : String) : List Event :=
  match lookupKey st.sessions sid with
  | none => []
  | some s =>
    s.processed_files.map (fun q => Event.filesDelete q.2.gemini_file_id)

/-- The deletion loop of `_cleanup_sessions` (lines 110-112): for each
collected expired id, release its files, then `del self.sessions[sid]`. -/
def cleanup_loop (st : ServerState) : List String → ServerState × List Event
  | [] => (st, [])
  | sid :: rest =>
    let evs := cleanup_session_files st sid
    let st' := { st with sessions := removeKey st.sessions sid }
    let r := cleanup_loop st' rest
    (r.1, evs ++ r.2)

/-- One tick of the reaper loop body (lines 103-112): collect the ids of
sessions idle strictly longer than `SESSION_TTL`, then release and remove
each. -/
def cleanup_sessions_tick (st : ServerState) (now : Nat) :
    ServerState × List Event :=
  let expired :=
    (st.sessions.filter
      (fun p => decide (SESSION_TTL < now - p.2.last_used))).map Prod.fst
  cleanup_loop st expired

/-! ### Consultation orchestrator (`consult_gemini`, lines 257-389) -/

/-- The caller-supplied description of a file
(`file_descriptions.get(file_path, "") if file_descriptions else ""`,
line 321). -/
def describeFor (fdesc : Option (List (String × String))) (path : String) :
    String :=
  match fdesc with
  | none => ""
  | some m => (lookupKey m path).getD ""

/-- The per-file loop of the first exchange (lines 314-331): process each
attached file, appending its display line on success and an inline failure
note on error (a single file's failure never aborts the call). -/
def processAttachedFiles (gw : Gateway) (files : List String)
    (fdesc : Option (List (String × String))) (s : Session) :
    Session × List String × List Event :=
  match files with
  | [] => (s, [], [])
  | path :: rest =>
    match process_file gw path s with
    | (Except.ok fi, s', evs) =>
      let d := describeFor fdesc path
      let part :=
        "\n- " ++ fi.file_name ++ (if d == "" then "" else " - " ++ d)
      let r := processAttachedFiles gw rest fdesc s'
      (r.1, part :: r.2.1, evs ++ r.2.2)
    | (Except.error e, s', evs) =>
      let part := "\n- " ++ path ++ " (failed to upload: " ++ e ++ ")"
      let r := processAttachedFiles gw rest fdesc s'
      (r.1, part :: r.2.1, evs ++ r.2.2)

/-- The message-content loop (lines 339-344): for every attached path that
made it into `session.processed_files`, re-fetch the uploaded file object
(`client.files.get`, poll index 0) and append it to the outgoing parts. -/
def collectFileParts (gw : Gateway) (files : List String) (s : Session) :
    List MsgPart × List Event :=
  match files with
  | [] => ([], [])
  | path :: rest =>
    match lookupKey s.processed_files path with
    | some fi =>
      let r := collectFileParts gw rest s
      (MsgPart.file (gw.getFile fi.gemini_file_id 0) :: r.1,
       Event.filesGet fi.gemini_file_id :: r.2)
    | none => collectFileParts gw rest s

/-- The question prompt (lines 357-365): the question, an optional
additional-context block, and — unless the approach is `"follow-up"` — a
type-of-help label. -/
def buildQuestionPrompt (a : ConsultArgs) : String :=
  "**Question:** " ++ a.specific_question ++
  (match a.additional_context with
   | none => ""
   | some ac =>
     if ac == "" then "" else "\n\n**Additional Context/Updates:**\n" ++ ac) ++
  (if a.preferred_approach == "follow-up" then ""
   else "\n\n**Type of Help Needed:** " ++ a.preferred_approach)

/-- The `except` handler of `consult_gemini` (lines 383-387): replace known
upstream fault substrings with friendlier text, pass everything else
through. -/
def classifyGeminiError (m : String) : String :=
  bif strContains m "RESOURCE_EXHAUSTED" then
    "Gemini API quota exceeded. Please try again later."
  else bif strContains m "INVALID_ARGUMENT" then
    "Request too large. Try reducing code context size."
  else m

/-- Sending the question message and formatting the reply
(lines 357-378); on a raised send error, control reaches the `except`
handler (lines 380-389) with the state mutated so far. -/
def sendQuestion (gw : Gateway) (st : ServerState) (session : Session)
    (a : ConsultArgs) (evs : List Event) :
    String × ServerState × List Event :=
  match gw.send session.chat (Content.str (buildQuestionPrompt a)) with
  | Except.error e =>
    ("Error: " ++ classifyGeminiError e, st,
     evs ++ [Event.sendMessage session.chat])
  | Except.ok text =>
    let session' := { session with message_count := session.message_count + 1 }
    let st' :=
      { st with
          sessions := insertKey st.sessions session'.session_id session' }
    ("**Session ID:** " ++ session'.session_id ++ "\n**Message #" ++
       toString session'.message_count ++ "**\n\n" ++ text ++
       "\n\n---\n*Use session_id: \"" ++ session'.session_id ++
       "\" for follow-up questions*",
     st', evs ++ [Event.sendMessage session'.chat])

/-- The first-exchange branch of `consult_gemini`
(`if session.message_count == 0`, lines 291-354): validation, storing the
initial context on the session, processing attachments, composing and
sending the introductory message.  State mutations performed before a
raised error persist, exactly as the in-place Python mutations do. -/
def firstExchange (gw : Gateway) (st1 : ServerState) (session : Session)
    (a : ConsultArgs) (ev1 : List Event) :
    String × ServerState × List Event :=
  bif optStrEmpty a.problem_description then
    ("Error: " ++
       classifyGeminiError "problem_description is required for new sessions",
     st1, ev1)
  else bif optStrEmpty a.code_context && optListEmpty a.attached_files then
    ("Error: " ++
       classifyGeminiError
         "Either code_context or attached_files are required for new sessions",
     st1, ev1)
  else
    let session1 :=
      { session with
          problem_description := a.problem_description
          code_context := a.code_context }
    let st2 :=
      { st1 with
          sessions := insertKey st1.sessions session1.session_id session1 }
    let rFiles :=
      bif optListEmpty a.attached_files then (session1, [], [])
      else
        let r :=
          processAttachedFiles gw (a.attached_files.getD [])
            a.file_descriptions session1
        (r.1, "\n**Attached Files:**" :: r.2.1, r.2.2)
    let session2 := rFiles.1
    let st3 :=
      { st2 with
          sessions := insertKey st2.sessions session2.session_id session2 }
    let contextText :=
      String.join
        (["I'm Claude, an AI assistant, and I need your help with a complex coding problem. Here's the context:\n\n**Problem Description:**\n" ++
            a.problem_description.getD ""] ++
         (bif optStrEmpty a.code_context then []
          else ["\n**Code Context:**\n" ++ a.code_context.getD ""]) ++
         rFiles.2.1 ++
         ["\n\nPlease help me solve this problem. I may have follow-up questions, so please maintain context throughout our conversation."])
    let rParts := collectFileParts gw (a.attached_files.getD []) session2
    match gw.send session2.chat
        (Content.parts (MsgPart.text contextText :: rParts.1)) with
    | Except.error e =>
      ("Error: " ++ classifyGeminiError e, st3,
       ev1 ++ rFiles.2.2 ++ rParts.2 ++ [Event.sendMessage session2.chat])
    | Except.ok _ =>
      let session3 :=
        { session2 with message_count := session2.message_count + 1 }
      let st4 :=
        { st3 with
            sessions := insertKey st3.sessions session3.session_id session3 }
      sendQuestion gw st4 session3 a
        (ev1 ++ rFiles.2.2 ++ rParts.2 ++ [Event.sendMessage session2.chat])

/-- The `consult_gemini` tool (lines 257-389).  `now` is the wall clock at
entry, `freshId` the uuid generated if no (or an empty) session id was
supplied.  Returns the text handed back to the caller, the server state
after the call, and the client calls made, in order.
`_ensure_cleanup_task_started` (line 284) only spawns the reaper task
(modelled separately by `cleanup_sessions_tick`) and makes no client call,
so it contributes nothing here.  A raised exception never crosses the tool
boundary: the `except` handler turns it into an `"Error: ..."` string
(lines 380-389). -/
def consult_gemini (gw : Gateway) (now : Nat) (freshId : String)
    (st : ServerState) (a : ConsultArgs) :
    String × ServerState × List Event :=
  let t := rateLimitGrant now st.last_request_time MIN_TIME_BETWEEN_REQUESTS
  let st0 := { st with last_request_time := t }
  let r := get_or_create_session st0 t a.session_id freshId
  bif r.1.message_count == 0 then firstExchange gw r.2.1 r.1 a r.2.2
  else sendQuestion gw r.2.1 r.1 a r.2.2

/-! ### `list_sessions` tool (lines 391-416) -/

/-- Timestamp rendering; `datetime.isoformat` is stdlib, modelled as the
decimal rendering of the second count (no claim depends on its shape). -/
def isoformatNat (n : Nat) : String :=
  toString n

/-- The truncated problem summary of one listing entry (line 401):
`(pd[:100] + "...") if pd else "No description"` — note the ellipsis is
appended whenever the description is non-empty, however short. -/
def problemSummary : Option String → String
  | none => "No description"
  | some d => bif d == "" then "No description" else d.take 100 ++ "..."

/-- One session's listing block (lines 396-409). -/
def sessionSummary (sid : String) (s : Session) : String :=
  "- **" ++ sid ++ "**\n  Messages: " ++ toString s.message_count ++
  "\n  Created: " ++ isoformatNat s.created ++
  "\n  Last used: " ++ isoformatNat s.last_used ++
  "\n  Files attached: " ++ toString s.processed_files.length ++
  "\n  Code context: " ++
  (if optStrEmpty s.code_context then "No" else "Yes") ++
  "\n  Problem: " ++ problemSummary s.problem_description

/-- The `list_sessions` tool (lines 391-416). -/
def list_sessions (st : ServerState) : String :=
  match st.sessions with
  | [] => "No active sessions"
  | l =>
    "Active sessions:\n" ++
    String.intercalate "\n\n" (l.map (fun p => sessionSummary p.1 p.2))

/-! ### Cooperative-scheduling model of `_rate_limit` (lines 128-134)

`_rate_limit` runs on the asyncio event loop.  Its only suspension point
is the `await asyncio.sleep(...)` between reading `last_request_time`
(line 131) and writing it (line 134).  Each task is therefore in one of
three phases: about to run the read/check (`ready`), suspended until a
wake-up instant with the stale read already taken (`sleeping`), or
returned (`done`).  Steps happen at non-decreasing instants; a task whose
spacing check passes runs read-and-write atomically (no `await` on that
path).  Time is counted in tenths of a second, so the configured one
second minimum spacing is `RL_MIN = 10`. -/

/-- Phase of one task executing `_rate_limit`. -/
inductive RLPhase where
  | ready
  | sleeping (wake : Nat)
  | done (ret : Nat)
deriving DecidableEq, Repr

/-- Two tasks sharing the server's `last_request_time`. -/
structure RLState where
  clock : Nat
  last : Nat
  task1 : RLPhase
  task2 : RLPhase
deriving DecidableEq, Repr

/-- Minimum spacing (1 second) in tenths of a second. -/
def RL_MIN : Nat := 10

/-- Interleaved execution of two `_rate_limit()` calls on the event loop.
`run_fast`: the check `now - last < min` fails, so the task sets
`last_request_time` and returns in one atomic slice.  `run_sleep`: the
check passes, so the task suspends for the remaining delta, having already
read the old `last`.  `wake`: a sleeping task resumes, writes
`last_request_time` and returns. -/
inductive RLStep : RLState → RLState → Prop
  | run_fast1 (s : RLState) (τ : Nat) :
      s.task1 = RLPhase.ready → s.clock ≤ τ → RL_MIN ≤ τ - s.last →
      RLStep s { clock := τ, last := τ, task1 := RLPhase.done τ, task2 := s.task2 }
  | run_sleep1 (s : RLState) (τ : Nat) :
      s.task1 = RLPhase.ready → s.clock ≤ τ → τ - s.last < RL_MIN →
      RLStep s { s with clock := τ,
                        task1 := RLPhase.sleeping (τ + (RL_MIN - (τ - s.last))) }
  | wake1 (s : RLState) (w : Nat) :
      s.task1 = RLPhase.sleeping w → s.clock ≤ w →
      RLStep s { clock := w, last := w, task1 := RLPhase.done w, task2 := s.task2 }
  | run_fast2 (s : RLState) (τ : Nat) :
      s.task2 = RLPhase.ready → s.clock ≤ τ → RL_MIN ≤ τ - s.last →
      RLStep s { clock := τ, last := τ, task1 := s.task1, task2 := RLPhase.done τ }
  | run_sleep2 (s : RLState) (τ : Nat) :
      s.task2 = RLPhase.ready → s.clock ≤ τ → τ - s.last < RL_MIN →
      RLStep s { s with clock := τ,
                        task2 := RLPhase.sleeping (τ + (RL_MIN - (τ - s.last))) }
  | wake2 (s : RLState) (w : Nat) :
      s.task2 = RLPhase.sleeping w → s.clock ≤ w →
      RLStep s { clock := w, last := w, task1 := s.task1, task2 := RLPhase.done w }

/-- Both tasks about to call `_rate_limit()` on a brand-new server
(`last_request_time = 0`, line 90). -/
def rlInit : RLState :=
  { clock := 0, last := 0, task1 := RLPhase.ready, task2 := RLPhase.ready }

/-! ### Concrete scenarios used to exercise the theorems -/

/-- Number of `client.files.upload` calls in an event trace. -/
def countUploads (evs : List Event) : Nat :=
  (evs.filter (fun e =>
    match e with
    | Event.filesUpload _ => true
    | _ => false)).length

/-- A gateway whose local filesystem is empty and whose remote calls all
fail. -/
def gwDown : Gateway :=
  { pathExists := fun _ => false
    guessType := fun _ => none
    upload := fun _ =>
      { name := "u", uri := "u", mime_type := "m", state := "FAILED" }
    getFile := fun _ _ =>
      { name := "u", uri := "u", mime_type := "m", state := "FAILED" }
    send := fun _ _ => Except.error "no network" }

/-- A gateway where every upload succeeds immediately and every message
gets a reply. -/
def gwUp : Gateway :=
  { pathExists := fun _ => true
    guessType := fun _ => none
    upload := fun p =>
      { name := "files/" ++ p, uri := "uri/" ++ p,
        mime_type := "text/x-python", state := "ACTIVE" }
    getFile := fun n _ =>
      { name := n, uri := "uri2", mime_type := "text/x-python",
        state := "ACTIVE" }
    send := fun _ _ => Except.ok "answer" }

/-- A gateway whose `send_message` raises a quota-exhaustion fault. -/
def gwQuota : Gateway :=
  { gwUp with send := fun _ _ => Except.error "429 RESOURCE_EXHAUSTED: quota" }

/-- A server with no sessions. -/
def emptyState : ServerState :=
  { sessions := [], last_request_time := 0, next_chat := 0 }

/-- The `ProcessedFile` that `gwUp` produces for path `"a.py"`. -/
def pfA : ProcessedFile :=
  { file_type := "file_data"
    file_uri := "uri/a.py"
    mime_type := "text/x-python"
    file_name := "a.py"
    file_path := "a.py"
    gemini_file_id := "files/a.py" }

/-- A session that has not yet exchanged any message. -/
def freshSession : Session :=
  { session_id := "s1", chat := 0, created := 0, last_used := 0,
    message_count := 0 }

/-- A session holding one cached processed file. -/
def cachedSession : Session :=
  { freshSession with message_count := 1, processed_files := [("a.py", pfA)] }

/-- An established session with three exchanges. -/
def activeSession : Session :=
  { session_id := "s2", chat := 7, created := 0, last_used := 0,
    message_count := 3 }

/-- `consult_gemini` arguments for session `"s1"` with no problem
description. -/
def argsMissingPd : ConsultArgs :=
  { specific_question := "q", session_id := some "s1" }

/-- `consult_gemini` arguments for session `"s1"` with a problem
description but neither code context nor attached files. -/
def argsNoContext : ConsultArgs :=
  { specific_question := "q", session_id := some "s1",
    problem_description := some "p" }

/-- Complete first-session `consult_gemini` arguments. -/
def argsFull : ConsultArgs :=
  { specific_question := "q", session_id := some "s1",
    problem_description := some "p", code_context := some "c" }

/-- Follow-up arguments addressed to `activeSession`. -/
def argsFollowUp : ConsultArgs :=
  { specific_question := "q2", session_id := some "s2" }

/-- A 150-character problem description. -/
def d150 : String :=
  String.mk (List.replicate 150 'a')

/-- A store with the 150-character description installed. -/
def listState : ServerState :=
  { sessions :=
      [("s1", { freshSession with problem_description := some d150 })]
    last_request_time := 0
    next_chat := 1 }

/-- A store with one long-idle session owning a file and one fresh
session. -/
def reapStore : ServerState :=
  { sessions :=
      [("s1", cachedSession), ("s2", { activeSession with last_used := 5000 })]
    last_request_time := 0
    next_chat := 2 }

/-- A store containing only the established session `activeSession`. -/
def stKnown : ServerState :=
  { sessions := [("s2", activeSession)], last_request_time := 0,
    next_chat := 8 }

/-! ### Association-list lemmas -/

theorem strBeqSymm (x y : String) : (x == y) = (y == x) := by
  cases h1 : x == y with
  | true =>
    have hxy : x = y := eq_of_beq h1
    subst hxy
    simp
  | false =>
    cases h2 : y == x with
    | true =>
      have hyx : y = x := eq_of_beq h2
      subst hyx
      rw [beq_self_eq_true] at h1
      exact h1.symm
    | false => rfl

theorem lookupKey_map_replace {α : Type} (m : List (String × α)) (k : String)
    (v : α) (h : (lookupKey m k).isSome = true) :
    lookupKey (m.map (fun p => bif p.1 == k then (k, v) else p)) k = some v := by
  induction m with
  | nil => simp [lookupKey] at h
  | cons p rest ih =>
    obtain ⟨a, b⟩ := p
    cases hk : a == k with
    | true => simp [lookupKey, hk]
    | false =>
      simp only [lookupKey, hk, Bool.cond_false, List.map_cons] at h ⊢
      exact ih h

theorem lookupKey_append_right {α : Type} (m : List (String × α)) (k : String)
    (v : α) (h : lookupKey m k = none) :
    lookupKey (m ++ [(k, v)]) k = some v := by
  induction m with
  | nil => simp [lookupKey]
  | cons p rest ih =>
    obtain ⟨a, b⟩ := p
    cases hk : a == k with
    | true => simp [lookupKey, hk] at h
    | false =>
      simp only [lookupKey, hk, Bool.cond_false] at h
      simp only [List.cons_append, lookupKey, hk, Bool.cond_false]
      exact ih h

theorem lookupKey_insertKey_self {α : Type} (m : List (String × α))
    (k : String) (v : α) :
    lookupKey (insertKey m k v) k = some v := by
  unfold insertKey
  cases h : lookupKey m k with
  | none =>
    simp only [h, Option.isSome_none, Bool.false_eq_true, if_false]
    exact lookupKey_append_right m k v h
  | some w =>
    have hs : (lookupKey m k).isSome = true := by simp [h]
    simp only [h, Option.isSome_some, if_true]
    exact lookupKey_map_replace m k v hs

theorem insertKey_length_of_present {α : Type} (m : List (String × α))
    (k : String) (v : α) (h : (lookupKey m k).isSome = true) :
    (insertKey m k v).length = m.length := by
  simp [insertKey, h]

theorem lookupKey_removeKey_ne {α : Type} (m : List (String × α))
    (k sid : String) (h : (k == sid) = false) :
    lookupKey (removeKey m sid) k = lookupKey m k := by
  induction m with
  | nil => simp [removeKey, lookupKey]
  | cons p rest ih =>
    obtain ⟨a, b⟩ := p
    cases hp : a == sid with
    | true =>
      have hpk : (a == k) = false := by
        have ha : a = sid := eq_of_beq hp
        subst ha
        rw [strBeqSymm]
        exact h
      simp only [removeKey, List.filter_cons, bne, hp, Bool.not_true,
        Bool.false_eq_true, if_false] at ih ⊢
      rw [ih]
      simp [lookupKey, hpk]
    | false =>
      simp only [removeKey, List.filter_cons, bne, hp, Bool.not_false,
        if_true] at ih ⊢
      simp only [lookupKey]
      cases hk : a == k with
      | true => simp
      | false =>
        simp only [Bool.cond_false]
        exact ih

theorem lookupKey_isSome_of_mem {α : Type} (m : List (String × α))
    (k : String) (v : α) (h : (k, v) ∈ m) :
    (lookupKey m k).isSome = true := by
  induction m with
  | nil => simp at h
  | cons p rest ih =>
    obtain ⟨a, b⟩ := p
    rcases List.mem_cons.mp h with heq | hmem
    · rw [Prod.mk.injEq] at heq
      simp [lookupKey, heq.1]
    · simp only [lookupKey]
      cases hk : a == k with
      | true => simp
      | false =>
        simp only [Bool.cond_false]
        exact ih hmem

theorem lookupKey_eq_of_mem_nodup {α : Type} (m : List (String × α))
    (k : String) (v : α) (hnd : (m.map Prod.fst).Nodup) (h : (k, v) ∈ m) :
    lookupKey m k = some v := by
  induction m with
  | nil => simp at h
  | cons p rest ih =>
    obtain ⟨a, b⟩ := p
    rw [List.map_cons, List.nodup_cons] at hnd
    rcases List.mem_cons.mp h with heq | hmem
    · rw [Prod.mk.injEq] at heq
      simp [lookupKey, heq.1, heq.2]
    · simp only [lookupKey]
      cases hk : a == k with
      | true =>
        exfalso
        have hpk : a = k := eq_of_beq hk
        apply hnd.1
        rw [hpk]
        exact List.mem_map.mpr ⟨(k, v), hmem, rfl⟩
      | false =>
        simp only [Bool.cond_false]
        exact ih hnd.2 hmem

/-! ### Preservation lemmas for the orchestrator -/

theorem pollLoop_no_uploads (gw : Gateway) (name : String) :
    ∀ (fuel wait : Nat) (u : GFile),
      countUploads (pollLoop gw name u wait fuel).2 = 0 := by
  intro fuel
  induction fuel with
  | zero => intro wait u; simp [pollLoop, countUploads]
  | succ n ih =>
    intro wait u
    rw [pollLoop]
    cases hs : u.state == "PROCESSING" with
    | true =>
      simp only [hs, Bool.cond_true]
      simp only [countUploads, List.filter_cons] at ih ⊢
      exact ih (wait + 1) (gw.getFile name (wait + 1))
    | false => simp [hs, countUploads]

theorem process_file_preserves (gw : Gateway) (path : String) (s : Session) :
    (process_file gw path s).2.1.session_id = s.session_id ∧
    (process_file gw path s).2.1.chat = s.chat ∧
    (process_file gw path s).2.1.message_count = s.message_count ∧
    (process_file gw path s).2.1.problem_description = s.problem_description ∧
    (process_file gw path s).2.1.code_context = s.code_context := by
  rw [process_file]
  cases hc : lookupKey s.processed_files path with
  | some pf => simp
  | none =>
    cases he : gw.pathExists path with
    | false => simp
    | true =>
      simp only [he, Bool.not_true, Bool.cond_false]
      cases h1 : (pollLoop gw (gw.upload path).name (gw.upload path) 0 30).1.state
          == "PROCESSING" with
      | true => simp [h1]
      | false =>
        simp only [h1, Bool.cond_false]
        cases h2 : (pollLoop gw (gw.upload path).name (gw.upload path) 0 30).1.state
            == "FAILED" with
        | true => simp [h2]
        | false => simp [h2]

theorem processAttachedFiles_preserves (gw : Gateway)
    (fdesc : Option (List (String × String))) :
    ∀ (files : List String) (s : Session),
      (processAttachedFiles gw files fdesc s).1.session_id = s.session_id ∧
      (processAttachedFiles gw files fdesc s).1.chat = s.chat ∧
      (processAttachedFiles gw files fdesc s).1.message_count =
        s.message_count ∧
      (processAttachedFiles gw files fdesc s).1.problem_description =
        s.problem_description ∧
      (processAttachedFiles gw files fdesc s).1.code_context =
        s.code_context := by
  intro files
  induction files with
  | nil => intro s; simp [processAttachedFiles]
  | cons path rest ih =>
    intro s
    have hpf := process_file_preserves gw path s
    rw [processAttachedFiles]
    rcases hr : process_file gw path s with ⟨res, s', evs⟩
    rw [hr] at hpf
    simp only at hpf
    cases res with
    | ok fi =>
      simp only []
      have := ih s'
      refine ⟨?_, ?_, ?_, ?_, ?_⟩ <;>
        simp only [this.1, this.2.1, this.2.2.1, this.2.2.2.1, this.2.2.2.2,
          hpf.1, hpf.2.1, hpf.2.2.1, hpf.2.2.2.1, hpf.2.2.2.2]
    | error e =>
      simp only []
      have := ih s'
      refine ⟨?_, ?_, ?_, ?_, ?_⟩ <;>
        simp only [this.1, this.2.1, this.2.2.1, this.2.2.2.1, this.2.2.2.2,
          hpf.1, hpf.2.1, hpf.2.2.1, hpf.2.2.2.1, hpf.2.2.2.2]

theorem lookupKey_insertKey_eq {α : Type} (m : List (String × α))
    (k k' : String) (v : α) (h : k = k') :
    lookupKey (insertKey m k v) k' = some v := by
  subst h
  exact lookupKey_insertKey_self m k v

theorem sendQuestion_stores (gw : Gateway) (st : ServerState)
    (session : Session) (a : ConsultArgs) (evs : List Event) (k : String)
    (pd : Option String)
    (hk : session.session_id = k)
    (hpd : session.problem_description = pd)
    (h : lookupKey st.sessions k = some session) :
    ∃ s', lookupKey (sendQuestion gw st session a evs).2.1.sessions k
            = some s' ∧
          s'.problem_description = pd := by
  rw [sendQuestion]
  cases hs : gw.send session.chat (Content.str (buildQuestionPrompt a)) with
  | error e => exact ⟨session, h, hpd⟩
  | ok text =>
    refine ⟨{ session with message_count := session.message_count + 1 },
      ?_, hpd⟩
    exact lookupKey_insertKey_eq _ _ _ _ hk

theorem firstExchange_stores (gw : Gateway) (st1 : ServerState)
    (session : Session) (a : ConsultArgs) (ev1 : List Event)
    (hpd : optStrEmpty a.problem_description = false)
    (hcc : (optStrEmpty a.code_context && optListEmpty a.attached_files)
            = false) :
    ∃ s', lookupKey (firstExchange gw st1 session a ev1).2.1.sessions
            session.session_id = some s' ∧
          s'.problem_description = a.problem_description := by
  have hP := processAttachedFiles_preserves gw a.file_descriptions
    (a.attached_files.getD [])
    { session with
        problem_description := a.problem_description
        code_context := a.code_context }
  rw [firstExchange]
  simp only [hpd, hcc, Bool.cond_false]
  cases haf : optListEmpty a.attached_files with
  | true =>
    simp only [haf, Bool.cond_true]
    split
    · exact ⟨_, lookupKey_insertKey_self _ _ _, rfl⟩
    · exact sendQuestion_stores gw _ _ a _ session.session_id
        a.problem_description rfl rfl (lookupKey_insertKey_eq _ _ _ _ rfl)
  | false =>
    simp only [haf, Bool.cond_false]
    split
    · exact ⟨_, lookupKey_insertKey_eq _ _ _ _ hP.1, hP.2.2.2.1⟩
    · exact sendQuestion_stores gw _ _ a _ session.session_id
        a.problem_description hP.1 hP.2.2.2.1
        (lookupKey_insertKey_eq _ _ _ _ hP.1)

/-! ### Reaper lemmas -/

theorem keysNodup_removeKey {α : Type} (m : List (String × α)) (sid : String)
    (h : (m.map Prod.fst).Nodup) :
    ((removeKey m sid).map Prod.fst).Nodup :=
  ((List.filter_sublist m).map Prod.fst).nodup h

theorem cleanup_loop_spec : ∀ (ids : List String) (st : ServerState),
    (st.sessions.map Prod.fst).Nodup → ids.Nodup →
    (∀ i ∈ ids, (lookupKey st.sessions i).isSome = true) →
    (cleanup_loop st ids).1.sessions
        = st.sessions.filter (fun p => !(decide (p.1 ∈ ids))) ∧
    (cleanup_loop st ids).2
        = (ids.map (fun i => cleanup_session_files st i)).flatten := by
  intro ids
  induction ids with
  | nil =>
    intro st _ _ _
    constructor
    · simp [cleanup_loop]
    · simp [cleanup_loop]
  | cons sid rest ih =>
    intro st h1 h2 h3
    rw [List.nodup_cons] at h2
    have hlk : ∀ i ∈ rest,
        lookupKey (removeKey st.sessions sid) i = lookupKey st.sessions i := by
      intro i hi
      apply lookupKey_removeKey_ne
      have hne : i ≠ sid := fun he => h2.1 (he ▸ hi)
      exact beq_eq_false_iff_ne.mpr hne
    have ihst := ih { st with sessions := removeKey st.sessions sid }
      (keysNodup_removeKey st.sessions sid h1) h2.2
      (by
        intro i hi
        have := hlk i hi
        simp only []
        rw [this]
        exact h3 i (List.mem_cons_of_mem sid hi))
    rw [cleanup_loop]
    constructor
    · rw [ihst.1]
      simp only []
      rw [removeKey, List.filter_filter]
      apply List.filter_congr
      intro p hp
      by_cases hs : p.1 = sid <;> by_cases hr : p.1 ∈ rest <;>
        simp [hs, hr, bne]
    · rw [List.map_cons, List.flatten_cons]
      simp only []
      rw [ihst.2]
      have hmap :
          List.map
            (fun i =>
              cleanup_session_files
                { st with sessions := removeKey st.sessions sid } i) rest
            = List.map (fun i => cleanup_session_files st i) rest := by
        apply List.map_congr_left
        intro i hi
        rw [cleanup_session_files, cleanup_session_files]
        simp only []
        rw [hlk i hi]
      rw [hmap]

/-! ### Claim theorems -/

/-- Claim C10: for every session and every path already present in
`session.processed_files`, `_process_file` returns the cached
`ProcessedFile` before the local-existence check and before any gateway
call — here stated for a gateway on which the local file no longer exists
(`pathExists = false`): the attachment still succeeds, with no events. -/
theorem process_file_cached_skips_checks (gw : Gateway) (s : Session)
    (path : String) (pf : ProcessedFile)
    (hgone : gw.pathExists path = false)
    (hc : lookupKey s.processed_files path = some pf) :
    process_file gw path s = (Except.ok pf, s, []) := by
  simp [process_file, hc]

theorem process_file_cached_skips_checks_witness :
    gwDown.pathExists "a.py" = false ∧
    process_file gwDown "a.py" cachedSession
        = (Except.ok pfA, cachedSession, []) :=
  ⟨rfl, process_file_cached_skips_checks gwDown cachedSession "a.py" pfA
    rfl rfl⟩

/-- Claim C3: attaching a path not yet cached in the session performs
exactly one upload, and attaching it again returns the very same
`ProcessedFile` from the cache with no further gateway calls — so the two
attachments together upload exactly once and agree on the result. -/
theorem process_file_idempotent_single_upload (gw : Gateway) (s : Session)
    (path : String) (pf : ProcessedFile) (s' : Session) (ev1 : List Event)
    (hfresh : lookupKey s.processed_files path = none)
    (hrun : process_file gw path s = (Except.ok pf, s', ev1)) :
    countUploads ev1 = 1 ∧
    process_file gw path s' = (Except.ok pf, s', []) := by
  rw [process_file, hfresh] at hrun
  cases hex : gw.pathExists path with
  | false => rw [hex] at hrun; simp at hrun
  | true =>
    rw [hex] at hrun
    simp only [Bool.not_true, Bool.cond_false] at hrun
    cases h1 : (pollLoop gw (gw.upload path).name (gw.upload path) 0 30).1.state
        == "PROCESSING" with
    | true => rw [h1] at hrun; simp at hrun
    | false =>
      rw [h1] at hrun
      simp only [Bool.cond_false] at hrun
      cases h2 : (pollLoop gw (gw.upload path).name (gw.upload path) 0 30).1.state
          == "FAILED" with
      | true => rw [h2] at hrun; simp at hrun
      | false =>
        rw [h2] at hrun
        simp only [Bool.cond_false, Prod.mk.injEq, Except.ok.injEq] at hrun
        obtain ⟨hpf, hs', hev⟩ := hrun
        constructor
        · rw [← hev]
          have h0 := pollLoop_no_uploads gw (gw.upload path).name 30 0
            (gw.upload path)
          simp only [countUploads, List.filter_cons] at h0 ⊢
          simp only [List.length_eq_zero] at h0
          simp [h0]
        · have hl : lookupKey s'.processed_files path = some pf := by
            rw [← hs']
            simp only []
            rw [lookupKey_insertKey_self, hpf]
          simp [process_file, hl]

theorem process_file_idempotent_single_upload_witness :
    countUploads [Event.filesUpload "a.py"] = 1 ∧
    process_file gwUp "a.py"
        { freshSession with processed_files := [("a.py", pfA)] }
      = (Except.ok pfA,
         { freshSession with processed_files := [("a.py", pfA)] }, []) :=
  process_file_idempotent_single_upload gwUp freshSession "a.py" pfA
    { freshSession with processed_files := [("a.py", pfA)] }
    [Event.filesUpload "a.py"] rfl (by rfl)

/-- Claim C8: `list_sessions` on an empty store answers
`"No active sessions"`, and with one stored session whose problem
description is 150 characters long, the listing ends with that description
truncated to its first 100 characters followed by `"..."`. -/
theorem list_sessions_spec (st st' : ServerState) (sid : String)
    (s : Session) (d : String)
    (h0 : st.sessions = [])
    (h1 : st'.sessions = [(sid, s)])
    (h2 : s.problem_description = some d)
    (h3 : d.length = 150) :
    list_sessions st = "No active sessions" ∧
    ∃ pre, list_sessions st' = pre ++ (d.take 100 ++ "...") := by
  constructor
  · rw [list_sessions, h0]
  · have hne : (d == "") = false := by
      cases hb : d == "" with
      | true =>
        have hd : d = "" := eq_of_beq hb
        rw [hd] at h3
        simp at h3
      | false => rfl
    rw [list_sessions, h1]
    simp only [List.map_cons, List.map_nil]
    rw [show String.intercalate "\n\n" [sessionSummary sid s]
          = sessionSummary sid s from by
        simp [String.intercalate, String.intercalate.go]]
    rw [sessionSummary, h2]
    rw [show problemSummary (some d) = d.take 100 ++ "..." from by
        simp [problemSummary, hne]]
    exact ⟨_, (String.append_assoc _ _ _).symm⟩

theorem list_sessions_spec_witness :
    list_sessions emptyState = "No active sessions" ∧
    ∃ pre, list_sessions listState = pre ++ (d150.take 100 ++ "...") :=
  list_sessions_spec emptyState listState "s1"
    { freshSession with problem_description := some d150 } d150
    rfl rfl rfl rfl

/-- Claim C7: resolving a session id that is already registered returns
the stored session with only `last_used` refreshed (all other fields
unchanged), updates that timestamp to a value ≥ the previous one, makes no
client call and registers nothing new; resolving an unknown id is the one
and only resolution that creates — it makes a single `chats.create` call
and registers a fresh zero-message session under the id. -/
theorem get_or_create_session_spec (st : ServerState) (now : Nat)
    (id fresh : String) (h1 : (id == "") = false) :
    (∀ s, lookupKey st.sessions id = some s → s.last_used ≤ now →
      (get_or_create_session st now (some id) fresh).1
          = { s with last_used := now } ∧
      s.last_used ≤ (get_or_create_session st now (some id) fresh).1.last_used ∧
      (get_or_create_session st now (some id) fresh).2.2 = [] ∧
      lookupKey (get_or_create_session st now (some id) fresh).2.1.sessions id
          = some (get_or_create_session st now (some id) fresh).1 ∧
      (get_or_create_session st now (some id) fresh).2.1.sessions.length
          = st.sessions.length) ∧
    (lookupKey st.sessions id = none →
      (get_or_create_session st now (some id) fresh).2.2
          = [Event.chatsCreate st.next_chat] ∧
      lookupKey (get_or_create_session st now (some id) fresh).2.1.sessions id
          = some (get_or_create_session st now (some id) fresh).1 ∧
      (get_or_create_session st now (some id) fresh).1.message_count = 0) := by
  constructor
  · intro s hs hle
    simp only [get_or_create_session, resolveId, h1, Bool.cond_false, hs]
    refine ⟨?_, ?_, ?_, ?_, ?_⟩ <;>
      first
        | trivial
        | exact hle
        | exact lookupKey_insertKey_self _ _ _
        | exact insertKey_length_of_present _ _ _ (by simp [hs])
  · intro hn
    simp only [get_or_create_session, resolveId, h1, Bool.cond_false, hn]
    refine ⟨?_, ?_, ?_⟩ <;>
      first
        | trivial
        | exact lookupKey_insertKey_self _ _ _

theorem get_or_create_session_spec_witness :
    (get_or_create_session stKnown 9 (some "s2") "f").1
        = { activeSession with last_used := 9 } ∧
    (get_or_create_session emptyState 3 (some "sX") "f").2.2
        = [Event.chatsCreate 0] :=
  ⟨((get_or_create_session_spec stKnown 9 "s2" "f" rfl).1 activeSession
      rfl (by decide)).1,
   ((get_or_create_session_spec emptyState 3 "sX" "f" rfl).2 rfl).1⟩

/-- Claim C2 is refuted by the code: two concurrent `_rate_limit()` calls
CAN both return within less than the configured minimum spacing, because
the read of `last_request_time` and its update straddle the
`asyncio.sleep` suspension point.  Concretely, from a fresh server both
tasks read `last = 0` (at 0.2 s and 0.3 s), both sleep, and both return at
the 1.0 s mark — zero spacing.  This interleaving is reachable in the
transition system modelling lines 128-134. -/
theorem rate_limit_concurrent_acquire_race :
    ∃ (s : RLState) (r1 r2 : Nat),
      Relation.ReflTransGen RLStep rlInit s ∧
      s.task1 = RLPhase.done r1 ∧ s.task2 = RLPhase.done r2 ∧
      r1 - r2 < RL_MIN ∧ r2 - r1 < RL_MIN := by
  refine ⟨{ clock := 10, last := 10, task1 := RLPhase.done 10,
            task2 := RLPhase.done 10 }, 10, 10, ?_, rfl, rfl,
          by decide, by decide⟩
  have h1 : RLStep rlInit
      { clock := 2, last := 0, task1 := RLPhase.sleeping 10,
        task2 := RLPhase.ready } :=
    RLStep.run_sleep1 rlInit 2 rfl (by decide) (by decide)
  have h2 : RLStep
      { clock := 2, last := 0, task1 := RLPhase.sleeping 10,
        task2 := RLPhase.ready }
      { clock := 3, last := 0, task1 := RLPhase.sleeping 10,
        task2 := RLPhase.sleeping 10 } :=
    RLStep.run_sleep2 _ 3 rfl (by decide) (by decide)
  have h3 : RLStep
      { clock := 3, last := 0, task1 := RLPhase.sleeping 10,
        task2 := RLPhase.sleeping 10 }
      { clock := 10, last := 10, task1 := RLPhase.done 10,
        task2 := RLPhase.sleeping 10 } :=
    RLStep.wake1 _ 10 rfl (by decide)
  have h4 : RLStep
      { clock := 10, last := 10, task1 := RLPhase.done 10,
        task2 := RLPhase.sleeping 10 }
      { clock := 10, last := 10, task1 := RLPhase.done 10,
        task2 := RLPhase.done 10 } :=
    RLStep.wake2 _ 10 rfl (by decide)
  exact Relation.ReflTransGen.head h1 (Relation.ReflTransGen.head h2
    (Relation.ReflTransGen.head h3 (Relation.ReflTransGen.single h4)))

/-- Claim C1 as frozen is refuted: on a brand-new session, `consult_gemini`
without `problem_description` does fail with the validation error and
performs no upload and no message send, but it does NOT perform zero client
calls — session resolution has already called `client.chats.create`
(line 230) before the validation at line 292 runs, so a conversation
handle exists when the call aborts.  Concrete run: empty store, unknown id
`"s1"`, no problem description. -/
theorem consult_new_session_creates_chat_cex :
    (consult_gemini gwDown 5 "fresh" emptyState argsMissingPd).1
        = "Error: problem_description is required for new sessions" ∧
    (consult_gemini gwDown 5 "fresh" emptyState argsMissingPd).2.2
        = [Event.chatsCreate 0] ∧
    (consult_gemini gwDown 5 "fresh" emptyState argsMissingPd).2.2 ≠ [] := by
  refine ⟨?_, ?_, ?_⟩ <;> decide

/-- Claim C1 (amended): on a brand-new session, `consult_gemini` without a
`problem_description` fails with the validation error, uploads no file and
sends no message before aborting; the only client call made is the
`chats.create` issued while resolving the session, before validation. -/
theorem consult_missing_problem_validation_events (gw : Gateway) (now : Nat)
    (freshId : String) (st : ServerState) (a : ConsultArgs)
    (hnew : lookupKey st.sessions (resolveId a.session_id freshId) = none)
    (hpd : optStrEmpty a.problem_description = true) :
    (consult_gemini gw now freshId st a).1
        = "Error: problem_description is required for new sessions" ∧
    (consult_gemini gw now freshId st a).2.2
        = [Event.chatsCreate st.next_chat] := by
  constructor
  · simp only [consult_gemini, get_or_create_session, hnew, firstExchange,
      hpd, Bool.cond_true, beq_self_eq_true]
    decide
  · simp only [consult_gemini, get_or_create_session, hnew, firstExchange,
      hpd, Bool.cond_true, beq_self_eq_true]

theorem consult_missing_problem_validation_events_witness :
    lookupKey stKnown.sessions (resolveId argsMissingPd.session_id "f")
        = none ∧
    (consult_gemini gwUp 5 "f" stKnown argsMissingPd).1
        = "Error: problem_description is required for new sessions" ∧
    (consult_gemini gwUp 5 "f" stKnown argsMissingPd).2.2
        = [Event.chatsCreate stKnown.next_chat] := by
  refine ⟨by decide, ?_, ?_⟩
  · exact (consult_missing_problem_validation_events gwUp 5 "f" stKnown
      argsMissingPd (by decide) (by decide)).1
  · exact (consult_missing_problem_validation_events gwUp 5 "f" stKnown
      argsMissingPd (by decide) (by decide)).2

/-- Claim C5: on a session whose `message_count` is 0, `consult_gemini`
fails with the first validation error when `problem_description` is empty
or absent; fails with the second validation error when it is present but
both `code_context` and `attached_files` are empty or absent; and when
both requirements are met no validation error is raised — execution
proceeds past validation and stores the problem description on the
session. -/
theorem consult_first_session_validation (gw : Gateway) (now : Nat)
    (freshId : String) (st : ServerState) (a : ConsultArgs) (sid : String)
    (hsid : a.session_id = some sid)
    (hne : (sid == "") = false)
    (hnew : lookupKey st.sessions sid = none) :
    (optStrEmpty a.problem_description = true →
      (consult_gemini gw now freshId st a).1
          = "Error: problem_description is required for new sessions") ∧
    (optStrEmpty a.problem_description = false →
      (optStrEmpty a.code_context && optListEmpty a.attached_files) = true →
      (consult_gemini gw now freshId st a).1
          = "Error: Either code_context or attached_files are required for new sessions") ∧
    (optStrEmpty a.problem_description = false →
      (optStrEmpty a.code_context && optListEmpty a.attached_files) = false →
      ∃ s', lookupKey (consult_gemini gw now freshId st a).2.1.sessions sid
              = some s' ∧
            s'.problem_description = a.problem_description) := by
  refine ⟨?_, ?_, ?_⟩
  · intro hpd
    simp only [consult_gemini, get_or_create_session, resolveId, hsid, hne,
      Bool.cond_false, hnew, firstExchange, hpd, Bool.cond_true,
      beq_self_eq_true]
    decide
  · intro hpd hcc
    simp only [consult_gemini, get_or_create_session, resolveId, hsid, hne,
      Bool.cond_false, hnew, firstExchange, hpd, hcc, Bool.cond_true,
      beq_self_eq_true]
    decide
  · intro hpd hcc
    simp only [consult_gemini, get_or_create_session, resolveId, hsid, hne,
      Bool.cond_false, hnew, beq_self_eq_true, Bool.cond_true]
    exact firstExchange_stores gw _ _ a _ hpd hcc

theorem consult_first_session_validation_witness :
    ((optStrEmpty argsFull.problem_description = true →
      (consult_gemini gwUp 11 "f" emptyState argsFull).1
          = "Error: problem_description is required for new sessions") ∧
    (optStrEmpty argsFull.problem_description = false →
      (optStrEmpty argsFull.code_context
          && optListEmpty argsFull.attached_files) = true →
      (consult_gemini gwUp 11 "f" emptyState argsFull).1
          = "Error: Either code_context or attached_files are required for new sessions") ∧
    (optStrEmpty argsFull.problem_description = false →
      (optStrEmpty argsFull.code_context
          && optListEmpty argsFull.attached_files) = false →
      ∃ s', lookupKey
              (consult_gemini gwUp 11 "f" emptyState argsFull).2.1.sessions
              "s1" = some s' ∧
            s'.problem_description = argsFull.problem_description)) :=
  consult_first_session_validation gwUp 11 "f" emptyState argsFull "s1"
    rfl (by decide) (by decide)

/-- Claim C6: a fault raised by the gateway send inside `consult_gemini`
never escapes the tool: the call returns a formatted `"Error: ..."` string
whose text replaces a message containing `RESOURCE_EXHAUSTED` with the
friendlier quota message, a message containing `INVALID_ARGUMENT` with the
friendlier size message, and passes any other message through verbatim. -/
theorem consult_error_classification (gw : Gateway) (now : Nat)
    (freshId : String) (st : ServerState) (a : ConsultArgs) (sid : String)
    (s : Session) (m : String)
    (hsid : a.session_id = some sid)
    (hne : (sid == "") = false)
    (hfound : lookupKey st.sessions sid = some s)
    (hmc : (s.message_count == 0) = false)
    (hsend : gw.send s.chat (Content.str (buildQuestionPrompt a))
        = Except.error m) :
    (consult_gemini gw now freshId st a).1
        = "Error: " ++
          (bif strContains m "RESOURCE_EXHAUSTED" then
             "Gemini API quota exceeded. Please try again later."
           else bif strContains m "INVALID_ARGUMENT" then
             "Request too large. Try reducing code context size."
           else m) := by
  simp only [consult_gemini, get_or_create_session, resolveId, hsid, hne,
    Bool.cond_false, hfound, hmc, sendQuestion, hsend, classifyGeminiError]

theorem consult_error_classification_witness :
    (consult_gemini gwQuota 3 "f" stKnown argsFollowUp).1
        = "Error: Gemini API quota exceeded. Please try again later." := by
  have h := consult_error_classification gwQuota 3 "f" stKnown argsFollowUp
    "s2" activeSession "429 RESOURCE_EXHAUSTED: quota"
    rfl (by decide) (by decide) (by decide) rfl
  rw [h]
  decide

/-- Claim C9: when `consult_gemini` with an unknown caller-supplied id
fails the first-call validation, nothing is rolled back: the session
remains registered under that id with `message_count = 0`, both context
fields still unset and a conversation handle already allocated; the only
client call made was `chats.create`; and a later `consult_gemini` with the
same id (and the same invalid arguments) is subject to new-session
validation again. -/
theorem consult_failed_validation_state (gw gw' : Gateway) (now now' : Nat)
    (freshId freshId' : String) (st : ServerState) (a : ConsultArgs)
    (sid : String)
    (hsid : a.session_id = some sid)
    (hne : (sid == "") = false)
    (hnew : lookupKey st.sessions sid = none)
    (hv : (optStrEmpty a.problem_description
            || (optStrEmpty a.code_context && optListEmpty a.attached_files))
           = true) :
    ∃ s', lookupKey (consult_gemini gw now freshId st a).2.1.sessions sid
            = some s' ∧
      s'.message_count = 0 ∧ s'.problem_description = none ∧
      s'.code_context = none ∧ s'.chat = st.next_chat ∧
      (consult_gemini gw now freshId st a).2.2
          = [Event.chatsCreate st.next_chat] ∧
      ((consult_gemini gw' now' freshId'
          (consult_gemini gw now freshId st a).2.1 a).1
         = "Error: problem_description is required for new sessions" ∨
       (consult_gemini gw' now' freshId'
          (consult_gemini gw now freshId st a).2.1 a).1
         = "Error: Either code_context or attached_files are required for new sessions") := by
  cases hpd : optStrEmpty a.problem_description with
  | true =>
    simp only [consult_gemini, get_or_create_session, resolveId, hsid, hne,
      Bool.cond_false, hnew, firstExchange, hpd, Bool.cond_true,
      beq_self_eq_true]
    refine ⟨_, lookupKey_insertKey_self _ _ _, by trivial, by trivial,
      by trivial, by trivial, by trivial, ?_⟩
    left
    have hlk2 := lookupKey_insertKey_self st.sessions sid
      { session_id := sid, chat := st.next_chat
        created := rateLimitGrant now st.last_request_time
          MIN_TIME_BETWEEN_REQUESTS
        last_used := rateLimitGrant now st.last_request_time
          MIN_TIME_BETWEEN_REQUESTS
        message_count := 0 }
    simp only [consult_gemini, get_or_create_session, resolveId, hsid, hne,
      Bool.cond_false, hlk2, firstExchange, hpd, Bool.cond_true,
      beq_self_eq_true]
    decide
  | false =>
    have hcc : (optStrEmpty a.code_context && optListEmpty a.attached_files)
        = true := by
      rw [hpd] at hv
      simpa using hv
    simp only [consult_gemini, get_or_create_session, resolveId, hsid, hne,
      Bool.cond_false, hnew, firstExchange, hpd, hcc, Bool.cond_true,
      beq_self_eq_true]
    refine ⟨_, lookupKey_insertKey_self _ _ _, by trivial, by trivial,
      by trivial, by trivial, by trivial, ?_⟩
    right
    have hlk2 := lookupKey_insertKey_self st.sessions sid
      { session_id := sid, chat := st.next_chat
        created := rateLimitGrant now st.last_request_time
          MIN_TIME_BETWEEN_REQUESTS
        last_used := rateLimitGrant now st.last_request_time
          MIN_TIME_BETWEEN_REQUESTS
        message_count := 0 }
    simp only [consult_gemini, get_or_create_session, resolveId, hsid, hne,
      Bool.cond_false, hlk2, firstExchange, hpd, hcc, Bool.cond_true,
      beq_self_eq_true]
    decide

theorem consult_failed_validation_state_witness :
    ∃ s', lookupKey
            (consult_gemini gwDown 9 "f" emptyState argsNoContext).2.1.sessions
            "s1" = some s' ∧
      s'.message_count = 0 ∧ s'.problem_description = none ∧
      s'.code_context = none ∧ s'.chat = emptyState.next_chat ∧
      (consult_gemini gwDown 9 "f" emptyState argsNoContext).2.2
          = [Event.chatsCreate emptyState.next_chat] ∧
      ((consult_gemini gwDown 2 "g"
          (consult_gemini gwDown 9 "f" emptyState argsNoContext).2.1
          argsNoContext).1
         = "Error: problem_description is required for new sessions" ∨
       (consult_gemini gwDown 2 "g"
          (consult_gemini gwDown 9 "f" emptyState argsNoContext).2.1
          argsNoContext).1
         = "Error: Either code_context or attached_files are required for new sessions") :=
  consult_failed_validation_state gwDown gwDown 9 2 "f" "g" emptyState
    argsNoContext "s1" rfl (by decide) (by decide) (by decide)

/-- Claim C4: one reaper tick removes exactly the sessions whose idle time
strictly exceeds `SESSION_TTL` (leaving the rest untouched, in order), and
the client calls it makes are exactly one `files.delete` per
`ProcessedFile` owned by each expired session. -/
theorem cleanup_tick_spec (st : ServerState) (now : Nat)
    (hnd : (st.sessions.map Prod.fst).Nodup) :
    (cleanup_sessions_tick st now).1.sessions
        = st.sessions.filter
            (fun p => !(decide (SESSION_TTL < now - p.2.last_used))) ∧
    (cleanup_sessions_tick st now).2
        = ((st.sessions.filter
              (fun p => decide (SESSION_TTL < now - p.2.last_used))).map
            (fun p => p.2.processed_files.map
              (fun q => Event.filesDelete q.2.gemini_file_id))).flatten := by
  have hids_nodup :
      ((st.sessions.filter
          (fun p => decide (SESSION_TTL < now - p.2.last_used))).map
        Prod.fst).Nodup :=
    ((List.filter_sublist st.sessions).map Prod.fst).nodup hnd
  have hsome : ∀ i ∈ (st.sessions.filter
      (fun p => decide (SESSION_TTL < now - p.2.last_used))).map Prod.fst,
      (lookupKey st.sessions i).isSome = true := by
    intro i hi
    obtain ⟨p, hpmem, hpeq⟩ := List.mem_map.mp hi
    have hpm : p ∈ st.sessions := List.mem_of_mem_filter hpmem
    rw [← hpeq]
    exact lookupKey_isSome_of_mem st.sessions p.1 p.2 hpm
  obtain ⟨hsess, hev⟩ := cleanup_loop_spec _ st hnd hids_nodup hsome
  constructor
  · simp only [cleanup_sessions_tick]
    rw [hsess]
    apply List.filter_congr
    intro p hp
    congr 1
    rw [decide_eq_decide]
    constructor
    · intro hmem
      obtain ⟨q, hq, hqeq⟩ := List.mem_map.mp hmem
      have hqm : q ∈ st.sessions := List.mem_of_mem_filter hq
      have hqexp := List.of_mem_filter hq
      have h1 : lookupKey st.sessions q.1 = some q.2 :=
        lookupKey_eq_of_mem_nodup st.sessions q.1 q.2 hnd hqm
      have h2 : lookupKey st.sessions p.1 = some p.2 :=
        lookupKey_eq_of_mem_nodup st.sessions p.1 p.2 hnd hp
      rw [hqeq] at h1
      rw [h1] at h2
      have hq2 : q.2 = p.2 := by injection h2
      rw [← hq2]
      exact of_decide_eq_true hqexp
    · intro hexp
      exact List.mem_map.mpr
        ⟨p, List.mem_filter.mpr ⟨hp, decide_eq_true hexp⟩, rfl⟩
  · simp only [cleanup_sessions_tick]
    rw [hev]
    congr 1
    rw [List.map_map]
    apply List.map_congr_left
    intro q hq
    have hqm : q ∈ st.sessions := List.mem_of_mem_filter hq
    have h1 : lookupKey st.sessions q.1 = some q.2 :=
      lookupKey_eq_of_mem_nodup st.sessions q.1 q.2 hnd hqm
    simp only [Function.comp, cleanup_session_files, h1]

theorem cleanup_tick_spec_witness :
    (cleanup_sessions_tick reapStore 5000).1.sessions
        = reapStore.sessions.filter
            (fun p => !(decide (SESSION_TTL < 5000 - p.2.last_used))) ∧
    (cleanup_sessions_tick reapStore 5000).2
        = ((reapStore.sessions.filter
              (fun p => decide (SESSION_TTL < 5000 - p.2.last_used))).map
            (fun p => p.2.processed_files.map
              (fun q => Event.filesDelete q.2.gemini_file_id))).flatten :=
  cleanup_tick_spec reapStore 5000 (by decide)

end GeminiMCP